import Mathlib

/-
  Verification development for the credential-verification core of the
  code-to-image service: the token verifier with its in-memory cache
  (src/db/tokenVerifier.js), the Lambda handler's verification stage
  (src/index.js), the lazily initialized PostgreSQL connection pool
  (src/db/connectionPool.js) and the Secrets Manager credential resolver
  (src/utils/secretsManager.js).

  The JavaScript is embedded shallowly: timestamps are naturals
  (milliseconds), the `Map` token cache is an association list, the
  outcome of one backing-store query is an `Except` value (exception or
  the at-most-one row produced by `LIMIT 1`), and each async function
  becomes a pure function threading the module-level state explicitly.
-/

/-- A row of the `api_tokens` table as selected by `queryDatabase`:
columns `user_id`, `expires_at` (nullable), `is_active`, `created_at`. -/
structure TokenRecord where
  user_id : String
  expires_at : Option Nat
  is_active : Bool
  created_at : Nat
  deriving Repr, DecidableEq

/-- The verification result object built by `verifyToken` / `queryDatabase`.
JavaScript result objects carry different subsets of fields on different
paths; fields absent on a path are `none`. -/
structure VerifyResult where
  isValid : Bool
  userId : Option String
  error : Option String
  expiresAt : Option Nat
  isActive : Option Bool
  createdAt : Option Nat
  deriving Repr, DecidableEq

/-- Cache entry structure of tokenVerifier.js: the stored result plus the
`cachedAt` timestamp. -/
structure CacheEntry where
  result : VerifyResult
  cachedAt : Nat
  deriving Repr, DecidableEq

/-- The module-level `tokenCache` Map, keyed by the token string. -/
abbrev Cache := List (String × CacheEntry)

/-- `tokenCache.get(token)`. -/
def cacheGet (c : Cache) (k : String) : Option CacheEntry :=
  match c.find? (fun p => p.1 == k) with
  | some p => some p.2
  | none => none

/-- `tokenCache.delete(token)`. -/
def cacheDelete (c : Cache) (k : String) : Cache :=
  c.filter (fun p => p.1 != k)

/-- `tokenCache.set(token, entry)` (replaces any previous binding). -/
def cacheSet (c : Cache) (k : String) (v : CacheEntry) : Cache :=
  (k, v) :: cacheDelete c k

/-- Outcome of one `query(...)` call against the backing store while
verifying a token: a raised exception, or the rows (at most one record,
because of `LIMIT 1`). -/
abbrev StoreOutcome := Except Unit (Option TokenRecord)

/-- The result object returned by `verifyToken` when the token argument is
absent or not a well-formed string. -/
def tokenRequiredResult : VerifyResult :=
  { isValid := false, userId := none, error := some "Token is required",
    expiresAt := none, isActive := none, createdAt := none }

/-- The result object returned by `verifyToken` from its catch block when
the database query throws. -/
def tokenVerificationFailedResult : VerifyResult :=
  { isValid := false, userId := none, error := some "Token verification failed",
    expiresAt := none, isActive := none, createdAt := none }

/-- `queryDatabase(token)` of tokenVerifier.js, given the rows the store
returned and the current time `now` (`new Date()`): not-found, inactive
(checked first), expired (`expires_at` present and strictly in the past),
and the valid case. -/
def queryDatabase (rows : Option TokenRecord) (now : Nat) : VerifyResult :=
  match rows with
  | none =>
      { isValid := false, userId := none, error := some "Token not found",
        expiresAt := none, isActive := none, createdAt := none }
  | some tokenRecord =>
      if tokenRecord.is_active = false then
        { isValid := false, userId := some tokenRecord.user_id,
          error := some "Token is inactive",
          expiresAt := none, isActive := none, createdAt := none }
      else
        match tokenRecord.expires_at with
        | some e =>
            if e < now then
              { isValid := false, userId := some tokenRecord.user_id,
                error := some "Token has expired",
                expiresAt := some e, isActive := none, createdAt := none }
            else
              { isValid := true, userId := some tokenRecord.user_id, error := none,
                expiresAt := some e, isActive := some tokenRecord.is_active,
                createdAt := some tokenRecord.created_at }
        | none =>
            { isValid := true, userId := some tokenRecord.user_id, error := none,
              expiresAt := none, isActive := some tokenRecord.is_active,
              createdAt := some tokenRecord.created_at }

/-- What one call to `verifyToken` produces: the returned result, the token
cache after the call, and whether the backing store was queried. -/
structure VerifyOutcome where
  result : VerifyResult
  cache : Cache
  dbQueried : Bool
  deriving Repr, DecidableEq

/-- The try block of `verifyToken` after a cache miss (or eviction): run
`queryDatabase`; cache the result only when `result.isValid`; on an
exception return the generic failure result and cache nothing. -/
def queryAndMaybeCache (dbq : StoreOutcome) (now : Nat) (c : Cache) (t : String) :
    VerifyOutcome :=
  match dbq with
  | Except.error _ =>
      { result := tokenVerificationFailedResult, cache := c, dbQueried := true }
  | Except.ok rows =>
      let result := queryDatabase rows now
      if result.isValid then
        { result := result,
          cache := cacheSet c t { result := result, cachedAt := now },
          dbQueried := true }
      else
        { result := result, cache := c, dbQueried := true }

/-- `verifyToken(token)` of tokenVerifier.js. `token = none` models a
missing/non-string argument and `some ""` the empty string (both falsy in
`!token`). `ttl` is `CACHE_TTL` in milliseconds, `now` is `Date.now()`,
`dbq` is the outcome the store would produce for this token on this call. -/
def verifyToken (ttl : Nat) (dbq : StoreOutcome) (now : Nat) (c : Cache)
    (token : Option String) : VerifyOutcome :=
  match token with
  | none => { result := tokenRequiredResult, cache := c, dbQueried := false }
  | some t =>
      if t.isEmpty then
        { result := tokenRequiredResult, cache := c, dbQueried := false }
      else
        match cacheGet c t with
        | some cached =>
            if now - cached.cachedAt < ttl then
              if cached.result.isValid then
                match cached.result.expiresAt with
                | some e =>
                    if e < now then
                      queryAndMaybeCache dbq now (cacheDelete c t) t
                    else
                      { result := cached.result, cache := c, dbQueried := false }
                | none =>
                    { result := cached.result, cache := c, dbQueried := false }
              else
                { result := cached.result, cache := c, dbQueried := false }
            else
              queryAndMaybeCache dbq now (cacheDelete c t) t
        | none => queryAndMaybeCache dbq now c t

/-- The caller-visible part of a Lambda response from the handler's token
verification stage: the status code and the `error` / `message` entries of
the JSON body. -/
structure HandlerResponse where
  statusCode : Nat
  error : Option String
  message : Option String
  deriving Repr, DecidableEq

/-- Outcome of the handler's verification stage: `response = none` means
verification passed and the request proceeds to rendering. -/
structure HandlerOutcome where
  response : Option HandlerResponse
  cache : Cache
  dbQueried : Bool
  deriving Repr, DecidableEq

/-- The token-verification stage of the Lambda handler (src/index.js): a
falsy token short-circuits to 401 "Missing API token"; otherwise
`verifyToken` runs, and a non-valid result yields 401 with
`tokenVerification.error` (or the fallback text) as the body's error. The
handler's 503 branch fires only when `verifyToken` throws; the embedded
`verifyToken` is total (its catch block returns a result instead of
rethrowing), so that branch has no counterpart here. -/
def handlerVerify (ttl : Nat) (dbq : StoreOutcome) (now : Nat) (c : Cache)
    (token : Option String) : HandlerOutcome :=
  let missing : Bool :=
    match token with
    | none => true
    | some t => t.isEmpty
  if missing then
    { response := some { statusCode := 401, error := some "Missing API token",
                         message := none },
      cache := c, dbQueried := false }
  else
    let out := verifyToken ttl dbq now c token
    if out.result.isValid then
      { response := none, cache := out.cache, dbQueried := out.dbQueried }
    else
      { response := some { statusCode := 401,
                           error := some (out.result.error.getD "Invalid or missing API token"),
                           message := none },
        cache := out.cache, dbQueried := out.dbQueried }

/-- The module-level state of connectionPool.js: the `pool` singleton
(identified by a numeric id), the `isInitializing` flag and the
`initPromise` slot (identified by a numeric promise id). -/
structure PoolState where
  pool : Option Nat
  isInitializing : Bool
  initPromise : Option Nat
  deriving Repr, DecidableEq

/-- The module state before any `getPool` call. -/
def uninitializedPoolState : PoolState :=
  { pool := none, isInitializing := false, initPromise := none }

/-- What one caller of `getPool` observes on entry: an already-built pool,
an in-flight initialization promise it joins, or the initialization it
itself starts. -/
inductive GetPoolObs where
  | existingPool : Nat → GetPoolObs
  | joinedInflight : Nat → GetPoolObs
  | startedInit : Nat → GetPoolObs
  deriving Repr, DecidableEq

/-- The synchronous prefix of `getPool` (connectionPool.js lines 18-31),
which JavaScript's run-to-completion semantics executes atomically: return
the existing pool; else if `isInitializing && initPromise` return the
in-flight promise; else set `isInitializing = true`, call
`initializePool()` (one pool construction and one
`getDatabaseCredentials` call per invocation) and publish its promise as
`initPromise`. `freshId` identifies the promise this caller would create. -/
def getPoolEntry (s : PoolState) (freshId : Nat) : PoolState × GetPoolObs :=
  match s.pool with
  | some p => (s, GetPoolObs.existingPool p)
  | none =>
      if s.isInitializing && s.initPromise.isSome then
        (s, GetPoolObs.joinedInflight (s.initPromise.getD 0))
      else
        ({ pool := none, isInitializing := true, initPromise := some freshId },
         GetPoolObs.startedInit freshId)

/-- N concurrent callers entering `getPool`: each caller's atomic entry
step runs in some order (the list order ranges over all interleavings,
since each entry step is atomic). Returns the final state and each
caller's observation. -/
def runCallers (s : PoolState) (ids : List Nat) : PoolState × List GetPoolObs :=
  match ids with
  | [] => (s, [])
  | id :: rest =>
      let step := getPoolEntry s id
      let next := runCallers step.1 rest
      (next.1, step.2 :: next.2)

/-- Number of initialization attempts started, i.e. of `initializePool()`
invocations — each performing exactly one pool construction and one secret
resolution. -/
def countStarted (l : List GetPoolObs) : Nat :=
  l.countP (fun o =>
    match o with
    | GetPoolObs.startedInit _ => true
    | _ => false)

/-- A whole `getPool()` call by a single caller, from entry to the point
its awaited initialization settles (connectionPool.js lines 18-40 together
with the catch block of `initializePool`, lines 88-92). `outcome` is how
the initialization attempt this caller awaits settles: `ok p` builds pool
`p`, `error e` rejects. On success `pool` is set and the `finally` clears
the guard; on failure `pool` stays unset, the guard is cleared and the
error propagates. The returned `Bool` records whether this call started a
fresh initialization attempt. -/
def getPoolSingle (s : PoolState) (outcome : Except String Nat) :
    PoolState × Except String Nat × Bool :=
  match s.pool with
  | some p => (s, Except.ok p, false)
  | none =>
      if s.isInitializing && s.initPromise.isSome then
        (s, outcome, false)
      else
        match outcome with
        | Except.ok p =>
            ({ pool := some p, isInitializing := false, initPromise := none },
             Except.ok p, true)
        | Except.error e =>
            ({ pool := none, isInitializing := false, initPromise := none },
             Except.error e, true)

/-- The JSON payload resolved from Secrets Manager, with the fields
secretsManager.js touches. Each field is `none` when absent from the
payload. The payload may carry a field literally named `user`; the code
never reads it (it reads `username`). -/
structure SecretPayload where
  host : Option String
  port : Option Nat
  database : Option String
  user : Option String
  username : Option String
  password : Option String
  deriving Repr, DecidableEq

/-- JavaScript falsiness of `secret[field]` for a string field: absent or
the empty string. -/
def strFalsy : Option String → Bool
  | none => true
  | some s => s.isEmpty

/-- JavaScript falsiness of `secret[field]` for the numeric `port` field:
absent or zero. -/
def natFalsy : Option Nat → Bool
  | none => true
  | some n => n == 0

/-- JavaScript `x || d` on the optional numeric `port`. -/
def jsOr (o : Option Nat) (d : Nat) : Nat :=
  match o with
  | some n => if n == 0 then d else n
  | none => d

/-- The connection parameters `getDatabaseCredentials` caches and returns. -/
structure DbCredentials where
  host : String
  port : Nat
  database : String
  user : String
  password : String
  deriving Repr, DecidableEq

/-- The `missingFields` computation of secretsManager.js: the required
field names, in order, whose payload value is falsy. The required list is
`host, port, database, username, password`. -/
def missingFields (secret : SecretPayload) : List String :=
  (if strFalsy secret.host then ["host"] else []) ++
  (if natFalsy secret.port then ["port"] else []) ++
  (if strFalsy secret.database then ["database"] else []) ++
  (if strFalsy secret.username then ["username"] else []) ++
  (if strFalsy secret.password then ["password"] else [])

/-- The validation-and-build step of `getDatabaseCredentials(secretName)`
on an already-resolved payload: throw when any required field is missing,
otherwise build the connection parameters (`user` is taken from the
payload's `username`, `port` defaults through `|| 5432`). -/
def getDatabaseCredentials (secret : SecretPayload) :
    Except (List String) DbCredentials :=
  if (missingFields secret).length > 0 then
    Except.error (missingFields secret)
  else
    Except.ok
      { host := secret.host.getD "", port := jsOr secret.port 5432,
        database := secret.database.getD "", user := secret.username.getD "",
        password := secret.password.getD "" }

/-- Decidable form of the token-cache invariant: every stored entry has
`isValid = true`. -/
def cacheAllValid (c : Cache) : Bool :=
  c.all (fun p => p.2.result.isValid)

theorem cacheAllValid_delete (c : Cache) (k : String)
    (hc : cacheAllValid c = true) : cacheAllValid (cacheDelete c k) = true := by
  simp only [cacheAllValid, cacheDelete, List.all_eq_true] at hc ⊢
  intro p hp
  exact hc p (List.mem_filter.mp hp).1

theorem cacheAllValid_set (c : Cache) (k : String) (v : CacheEntry)
    (hc : cacheAllValid c = true) (hv : v.result.isValid = true) :
    cacheAllValid (cacheSet c k v) = true := by
  simp only [cacheAllValid, cacheSet, List.all_cons, hv, Bool.true_and]
  exact cacheAllValid_delete c k hc

theorem cacheGet_set (c : Cache) (k : String) (v : CacheEntry) :
    cacheGet (cacheSet c k v) k = some v := by
  simp [cacheGet, cacheSet, List.find?]

theorem cacheAllValid_queryAndMaybeCache (dbq : StoreOutcome) (now : Nat)
    (c : Cache) (t : String) (hc : cacheAllValid c = true) :
    cacheAllValid (queryAndMaybeCache dbq now c t).cache = true := by
  cases dbq with
  | error e => simpa [queryAndMaybeCache] using hc
  | ok rows =>
      by_cases h : (queryDatabase rows now).isValid = true
      · simpa [queryAndMaybeCache, h] using
          cacheAllValid_set c t { result := queryDatabase rows now, cachedAt := now } hc h
      · simp only [Bool.not_eq_true] at h
        simpa [queryAndMaybeCache, h] using hc

theorem queryAndMaybeCache_dbQueried (dbq : StoreOutcome) (now : Nat)
    (c : Cache) (t : String) : (queryAndMaybeCache dbq now c t).dbQueried = true := by
  cases dbq with
  | error e => rfl
  | ok rows =>
      by_cases h : (queryDatabase rows now).isValid = true
      · simp [queryAndMaybeCache, h]
      · simp only [Bool.not_eq_true] at h
        simp [queryAndMaybeCache, h]

theorem verifyToken_miss (ttl : Nat) (dbq : StoreOutcome) (now : Nat)
    (c : Cache) (t : String) (ht : t.isEmpty = false) (hm : cacheGet c t = none) :
    verifyToken ttl dbq now c (some t) = queryAndMaybeCache dbq now c t := by
  simp [verifyToken, ht, hm]

theorem verifyToken_preserves_cacheAllValid (ttl : Nat) (dbq : StoreOutcome)
    (now : Nat) (c : Cache) (token : Option String)
    (hc : cacheAllValid c = true) :
    cacheAllValid (verifyToken ttl dbq now c token).cache = true := by
  cases token with
  | none => simpa [verifyToken] using hc
  | some t =>
      by_cases ht : t.isEmpty
      · simpa [verifyToken, ht] using hc
      · simp only [Bool.not_eq_true] at ht
        cases hg : cacheGet c t with
        | none =>
            rw [verifyToken_miss ttl dbq now c t ht hg]
            exact cacheAllValid_queryAndMaybeCache dbq now c t hc
        | some cached =>
            by_cases hfresh : now - cached.cachedAt < ttl
            · by_cases hv : cached.result.isValid = true
              · cases he : cached.result.expiresAt with
                | some e =>
                    by_cases hlt : e < now
                    · have : verifyToken ttl dbq now c (some t) =
                          queryAndMaybeCache dbq now (cacheDelete c t) t := by
                        simp [verifyToken, ht, hg, hfresh, hv, he, hlt]
                      rw [this]
                      exact cacheAllValid_queryAndMaybeCache dbq now (cacheDelete c t) t
                        (cacheAllValid_delete c t hc)
                    · have : (verifyToken ttl dbq now c (some t)).cache = c := by
                        simp [verifyToken, ht, hg, hfresh, hv, he, hlt]
                      rw [this]; exact hc
                | none =>
                    have : (verifyToken ttl dbq now c (some t)).cache = c := by
                      simp [verifyToken, ht, hg, hfresh, hv, he]
                    rw [this]; exact hc
              · simp only [Bool.not_eq_true] at hv
                have : (verifyToken ttl dbq now c (some t)).cache = c := by
                  simp [verifyToken, ht, hg, hfresh, hv]
                rw [this]; exact hc
            · have : verifyToken ttl dbq now c (some t) =
                  queryAndMaybeCache dbq now (cacheDelete c t) t := by
                simp [verifyToken, ht, hg, hfresh]
              rw [this]
              exact cacheAllValid_queryAndMaybeCache dbq now (cacheDelete c t) t
                (cacheAllValid_delete c t hc)

/-- An entry holding a negative verification result, used to exhibit the
behaviour of the cache-hit branch for invalid cached results. -/
def invalidCacheEntry : CacheEntry :=
  { result := { isValid := false, userId := none, error := some "Token not found",
                expiresAt := none, isActive := none, createdAt := none },
    cachedAt := 1000 }

/-- A record that is inactive (and has no expiry), as the store would
return it. -/
def inactiveRecord : TokenRecord :=
  { user_id := "u1", expires_at := none, is_active := false, created_at := 0 }

/-- C1: when the store query throws, `verifyToken` returns
`isValid = false` with the generic "Token verification failed" error and
caches nothing — but the caller-visible classification is the handler's
401 invalid-credential response (built from `tokenVerification.error`),
not a 503 service-unavailable response: `verifyToken` swallows the
exception, so the handler's 503 branch never fires. Evaluates the code at
the failing input: token "tok_abc", empty cache, store query raising. -/
theorem c1_store_error_classified_as_invalid_credential (ttl now : Nat) :
    (verifyToken ttl (Except.error ()) now [] (some "tok_abc")).result =
      tokenVerificationFailedResult
  ∧ (verifyToken ttl (Except.error ()) now [] (some "tok_abc")).cache = []
  ∧ (handlerVerify ttl (Except.error ()) now [] (some "tok_abc")).response =
      some { statusCode := 401, error := some "Token verification failed",
             message := none } :=
  ⟨rfl, rfl, rfl⟩

/-- C2, counterexample: two credential-state rejections of the same token
(not found vs. inactive) produce different caller-visible response bodies
— the handler surfaces the specific verifier message, so the rejections
are distinguishable, contrary to the claim that any two such rejections
produce the same response body and status. -/
theorem c2_rejections_same_response_counterexample :
    (handlerVerify 300000 (Except.ok none) 2000 [] (some "tok")).response =
      some { statusCode := 401, error := some "Token not found", message := none }
  ∧ (handlerVerify 300000 (Except.ok (some inactiveRecord)) 2000 [] (some "tok")).response =
      some { statusCode := 401, error := some "Token is inactive", message := none }
  ∧ (handlerVerify 300000 (Except.ok none) 2000 [] (some "tok")).response ≠
      (handlerVerify 300000 (Except.ok (some inactiveRecord)) 2000 [] (some "tok")).response := by
  decide

/-- C2, amended: every credential-state rejection (not found, inactive,
expired) is surfaced with the same 401 status, but the response body
carries the specific verifier error message — "Token not found",
"Token is inactive" or "Token has expired" — so which failure occurred is
visible to the external caller. -/
theorem c2_rejections_share_status_but_carry_specific_message
    (ttl now : Nat) (c : Cache) (t : String) (ri re : TokenRecord) (e : Nat)
    (ht : t.isEmpty = false) (hm : cacheGet c t = none)
    (hinact : ri.is_active = false)
    (hact : re.is_active = true) (hexp : re.expires_at = some e) (hlt : e < now) :
    (handlerVerify ttl (Except.ok none) now c (some t)).response =
      some { statusCode := 401, error := some "Token not found", message := none }
  ∧ (handlerVerify ttl (Except.ok (some ri)) now c (some t)).response =
      some { statusCode := 401, error := some "Token is inactive", message := none }
  ∧ (handlerVerify ttl (Except.ok (some re)) now c (some t)).response =
      some { statusCode := 401, error := some "Token has expired", message := none } := by
  refine ⟨?_, ?_, ?_⟩ <;>
    simp [handlerVerify, verifyToken_miss ttl _ now c t ht hm, queryAndMaybeCache,
      queryDatabase, ht, hinact, hact, hexp, hlt]

theorem c2_rejections_share_status_but_carry_specific_message_witness :
    (handlerVerify 300000 (Except.ok none) 2000 [] (some "tok")).response =
      some { statusCode := 401, error := some "Token not found", message := none }
  ∧ (handlerVerify 300000 (Except.ok (some inactiveRecord)) 2000 []
        (some "tok")).response =
      some { statusCode := 401, error := some "Token is inactive", message := none }
  ∧ (handlerVerify 300000
        (Except.ok (some { user_id := "u2", expires_at := some 100, is_active := true,
                           created_at := 0 })) 2000 [] (some "tok")).response =
      some { statusCode := 401, error := some "Token has expired", message := none } :=
  c2_rejections_share_status_but_carry_specific_message 300000 2000 [] "tok"
    inactiveRecord
    { user_id := "u2", expires_at := some 100, is_active := true, created_at := 0 }
    100 (by decide) (by decide) (by decide) (by decide) (by decide) (by decide)

/-- C3: the token-cache invariant — only results with `isValid = true` are
ever stored — is preserved by every `verifyToken` call, and two
consecutive calls for a token the store does not know (rows empty) each
perform a store query: the negative result is never written back. -/
theorem c3_only_valid_results_cached :
    (∀ ttl dbq now c token, cacheAllValid c = true →
        cacheAllValid (verifyToken ttl dbq now c token).cache = true)
  ∧ (∀ ttl now now2 c t, t.isEmpty = false → cacheGet c t = none →
        (verifyToken ttl (Except.ok none) now c (some t)).dbQueried = true
      ∧ (verifyToken ttl (Except.ok none) now2
          (verifyToken ttl (Except.ok none) now c (some t)).cache
          (some t)).dbQueried = true) := by
  constructor
  · intro ttl dbq now c token hc
    exact verifyToken_preserves_cacheAllValid ttl dbq now c token hc
  · intro ttl now now2 c t ht hm
    have h1 : verifyToken ttl (Except.ok none) now c (some t) =
        { result := queryDatabase none now, cache := c, dbQueried := true } := by
      rw [verifyToken_miss ttl (Except.ok none) now c t ht hm]
      simp [queryAndMaybeCache, queryDatabase]
    constructor
    · rw [h1]
    · rw [h1]
      have h2 : verifyToken ttl (Except.ok none) now2 c (some t) =
          { result := queryDatabase none now2, cache := c, dbQueried := true } := by
        rw [verifyToken_miss ttl (Except.ok none) now2 c t ht hm]
        simp [queryAndMaybeCache, queryDatabase]
      rw [h2]

theorem c3_only_valid_results_cached_witness :
    cacheAllValid (verifyToken 300000 (Except.ok none) 2000 [] (some "tok")).cache = true
  ∧ ((verifyToken 300000 (Except.ok none) 2000 [] (some "tok")).dbQueried = true
      ∧ (verifyToken 300000 (Except.ok none) 3000
          (verifyToken 300000 (Except.ok none) 2000 [] (some "tok")).cache
          (some "tok")).dbQueried = true) :=
  ⟨c3_only_valid_results_cached.1 300000 (Except.ok none) 2000 [] (some "tok")
      (by decide),
   c3_only_valid_results_cached.2 300000 2000 3000 [] "tok" (by decide) (by decide)⟩

/-- C9, counterexample: on a cache state holding, within TTL, an entry
whose cached result has `isValid = false`, `verifyToken` does not treat
the hit as a miss — it returns the cached negative result and performs no
store query (the "don't re-query invalid tokens" branch). -/
theorem c9_cached_invalid_hit_counterexample :
    (verifyToken 300000 (Except.ok none) 1001 [("tok", invalidCacheEntry)]
        (some "tok")).dbQueried = false
  ∧ (verifyToken 300000 (Except.ok none) 1001 [("tok", invalidCacheEntry)]
        (some "tok")).result = invalidCacheEntry.result := by
  decide

/-- C9, amended: on a within-TTL cache hit whose cached result has
`isValid = false`, `verifyToken` returns the cached negative result
unchanged, with no store query and no cache modification. (Such states
never arise from `verifyToken` itself, which only caches valid results.) -/
theorem c9_cached_invalid_served_from_cache (ttl : Nat) (dbq : StoreOutcome)
    (now : Nat) (c : Cache) (t : String) (entry : CacheEntry)
    (ht : t.isEmpty = false) (hh : cacheGet c t = some entry)
    (hfresh : now - entry.cachedAt < ttl) (hinv : entry.result.isValid = false) :
    verifyToken ttl dbq now c (some t) =
      { result := entry.result, cache := c, dbQueried := false } := by
  simp [verifyToken, ht, hh, hfresh, hinv]

theorem c9_cached_invalid_served_from_cache_witness :
    verifyToken 300000 (Except.ok none) 1001 [("tok", invalidCacheEntry)]
        (some "tok") =
      { result := invalidCacheEntry.result,
        cache := [("tok", invalidCacheEntry)], dbQueried := false } :=
  c9_cached_invalid_served_from_cache 300000 (Except.ok none) 1001
    [("tok", invalidCacheEntry)] "tok" invalidCacheEntry
    (by decide) (by decide) (by decide) (by decide)

/-- C4: `queryDatabase`'s exact case analysis of a found record:
`is_active = false` gives the inactive rejection regardless of
`expires_at` (the active check runs first); otherwise a present
`expires_at` strictly in the past gives the expired rejection; otherwise
the result is valid with the owner populated, and `verifyToken` stores it
in the cache stamped with the current time. -/
theorem c4_record_case_analysis (r : TokenRecord) (ttl now : Nat) (c : Cache)
    (t : String) (ht : t.isEmpty = false) (hm : cacheGet c t = none) :
    (r.is_active = false →
        queryDatabase (some r) now =
          { isValid := false, userId := some r.user_id,
            error := some "Token is inactive",
            expiresAt := none, isActive := none, createdAt := none })
  ∧ (∀ e, r.is_active = true → r.expires_at = some e → e < now →
        queryDatabase (some r) now =
          { isValid := false, userId := some r.user_id,
            error := some "Token has expired",
            expiresAt := some e, isActive := none, createdAt := none })
  ∧ (r.is_active = true → (∀ e, r.expires_at = some e → now ≤ e) →
        (queryDatabase (some r) now).isValid = true
      ∧ (queryDatabase (some r) now).userId = some r.user_id
      ∧ cacheGet (verifyToken ttl (Except.ok (some r)) now c (some t)).cache t =
          some { result := queryDatabase (some r) now, cachedAt := now }) := by
  refine ⟨?_, ?_, ?_⟩
  · intro hinact
    simp [queryDatabase, hinact]
  · intro e hact hexp hlt
    simp [queryDatabase, hact, hexp, hlt]
  · intro hact hunexp
    have hvalid : (queryDatabase (some r) now).isValid = true ∧
        (queryDatabase (some r) now).userId = some r.user_id := by
      cases hexp : r.expires_at with
      | none => simp [queryDatabase, hact, hexp]
      | some e =>
          have hle : now ≤ e := hunexp e hexp
          simp [queryDatabase, hact, hexp, Nat.not_lt.mpr hle]
    refine ⟨hvalid.1, hvalid.2, ?_⟩
    rw [verifyToken_miss ttl (Except.ok (some r)) now c t ht hm]
    simp only [queryAndMaybeCache, hvalid.1, if_true]
    exact cacheGet_set c t _

/-- An active record with a future expiry, for the witnesses. -/
def activeRecord : TokenRecord :=
  { user_id := "u3", expires_at := some 10000, is_active := true, created_at := 0 }

theorem c4_record_case_analysis_witness :
    (queryDatabase (some activeRecord) 2000).isValid = true
  ∧ (queryDatabase (some activeRecord) 2000).userId = some activeRecord.user_id
  ∧ cacheGet (verifyToken 300000 (Except.ok (some activeRecord)) 2000 []
        (some "tok")).cache "tok" =
      some { result := queryDatabase (some activeRecord) 2000, cachedAt := 2000 } :=
  (c4_record_case_analysis activeRecord 300000 2000 [] "tok"
      (by decide) (by decide)).2.2 (by decide)
    (by intro e h; simp [activeRecord] at h; omega)

/-- C5: lifecycle of a cached successful verification. Within TTL and with
the cached record's own expiry still in the future, the cached result is
returned with no store query and no cache change. Once the entry's age
reaches TTL, or the cached record's own expiry has passed (within TTL),
the entry is evicted and the call proceeds as one fresh store query on the
cache with the entry removed. -/
theorem c5_cache_ttl_and_expiry_lifecycle (ttl : Nat) (dbq : StoreOutcome)
    (now : Nat) (c : Cache) (t : String) (entry : CacheEntry)
    (ht : t.isEmpty = false) (hh : cacheGet c t = some entry)
    (hv : entry.result.isValid = true) :
    (∀ e, entry.result.expiresAt = some e → now - entry.cachedAt < ttl →
        now < e →
        verifyToken ttl dbq now c (some t) =
          { result := entry.result, cache := c, dbQueried := false })
  ∧ (ttl ≤ now - entry.cachedAt →
        verifyToken ttl dbq now c (some t) =
          queryAndMaybeCache dbq now (cacheDelete c t) t
      ∧ (verifyToken ttl dbq now c (some t)).dbQueried = true)
  ∧ (∀ e, entry.result.expiresAt = some e → now - entry.cachedAt < ttl →
        e < now →
        verifyToken ttl dbq now c (some t) =
          queryAndMaybeCache dbq now (cacheDelete c t) t
      ∧ (verifyToken ttl dbq now c (some t)).dbQueried = true) := by
  refine ⟨?_, ?_, ?_⟩
  · intro e he hfresh hfut
    have hnlt : ¬ e < now := Nat.not_lt.mpr (Nat.le_of_lt hfut)
    simp [verifyToken, ht, hh, hfresh, hv, he, hnlt]
  · intro hstale
    have hnfresh : ¬ now - entry.cachedAt < ttl := Nat.not_lt.mpr hstale
    have heq : verifyToken ttl dbq now c (some t) =
        queryAndMaybeCache dbq now (cacheDelete c t) t := by
      simp [verifyToken, ht, hh, hnfresh]
    exact ⟨heq, by rw [heq]; exact queryAndMaybeCache_dbQueried dbq now _ t⟩
  · intro e he hfresh hpast
    have heq : verifyToken ttl dbq now c (some t) =
        queryAndMaybeCache dbq now (cacheDelete c t) t := by
      simp [verifyToken, ht, hh, hfresh, hv, he, hpast]
    exact ⟨heq, by rw [heq]; exact queryAndMaybeCache_dbQueried dbq now _ t⟩

/-- A successfully verified cache entry used to instantiate the cache
lifecycle theorem. -/
def validCacheEntry : CacheEntry :=
  { result := { isValid := true, userId := some "u1", error := none,
                expiresAt := some 10000, isActive := some true, createdAt := some 0 },
    cachedAt := 1000 }

theorem c5_cache_ttl_and_expiry_lifecycle_witness :
    verifyToken 300000 (Except.ok none) 2000 [("tok", validCacheEntry)]
        (some "tok") =
      { result := validCacheEntry.result,
        cache := [("tok", validCacheEntry)], dbQueried := false } :=
  (c5_cache_ttl_and_expiry_lifecycle 300000 (Except.ok none) 2000
      [("tok", validCacheEntry)] "tok" validCacheEntry
      (by decide) (by decide) (by decide)).1 10000 (by decide) (by decide)
    (by decide)

/-- C10: the inactive and expired rejections of a found record carry the
record's owner id in `userId`, whereas the not-found, absent/malformed
token and store-error paths all return `userId = none`. -/
theorem c10_owner_id_on_rejections (r : TokenRecord) (ttl now : Nat)
    (dbq : StoreOutcome) (c : Cache) (t : String)
    (ht : t.isEmpty = false) (hm : cacheGet c t = none) :
    (r.is_active = false → (queryDatabase (some r) now).userId = some r.user_id)
  ∧ (∀ e, r.is_active = true → r.expires_at = some e → e < now →
        (queryDatabase (some r) now).userId = some r.user_id)
  ∧ (queryDatabase none now).userId = none
  ∧ (verifyToken ttl dbq now c none).result.userId = none
  ∧ (verifyToken ttl dbq now c (some "")).result.userId = none
  ∧ (verifyToken ttl (Except.error ()) now c (some t)).result.userId = none := by
  refine ⟨?_, ?_, rfl, rfl, rfl, ?_⟩
  · intro hinact
    simp [queryDatabase, hinact]
  · intro e hact hexp hlt
    simp [queryDatabase, hact, hexp, hlt]
  · rw [verifyToken_miss ttl (Except.error ()) now c t ht hm]
    rfl

theorem c10_owner_id_on_rejections_witness :
    (queryDatabase (some inactiveRecord) 2000).userId = some inactiveRecord.user_id
  ∧ (queryDatabase none 2000).userId = none
  ∧ (verifyToken 300000 (Except.ok none) 2000 [] none).result.userId = none
  ∧ (verifyToken 300000 (Except.ok none) 2000 [] (some "")).result.userId = none
  ∧ (verifyToken 300000 (Except.error ()) 2000 [] (some "tok")).result.userId =
      none := by
  have h := c10_owner_id_on_rejections inactiveRecord 300000 2000 (Except.ok none)
    [] "tok" (by decide) (by decide)
  exact ⟨h.1 (by decide), h.2.2.1, h.2.2.2.1, h.2.2.2.2.1, h.2.2.2.2.2⟩

theorem runCallers_inflight (pr : Nat) (ids : List Nat) :
    runCallers { pool := none, isInitializing := true, initPromise := some pr } ids =
      ({ pool := none, isInitializing := true, initPromise := some pr },
       ids.map (fun _ => GetPoolObs.joinedInflight pr)) := by
  induction ids with
  | nil => rfl
  | cons id rest ih => simp [runCallers, getPoolEntry, ih]

theorem countStarted_joined (pr : Nat) (ids : List Nat) :
    countStarted (ids.map (fun _ => GetPoolObs.joinedInflight pr)) = 0 := by
  induction ids with
  | nil => rfl
  | cons id rest ih => simp [countStarted, List.countP_cons]

/-- C6: N simultaneous first-time callers entering `getPool` on the
uninitialized module state, in any order: the first caller starts the one
initialization attempt and every other caller joins that same in-flight
promise, so exactly one `initializePool()` run — hence exactly one pool
construction and one secret resolution — occurs. -/
theorem c6_single_flight_initialization (firstId : Nat) (rest : List Nat) :
    (runCallers uninitializedPoolState (firstId :: rest)).2 =
      GetPoolObs.startedInit firstId ::
        rest.map (fun _ => GetPoolObs.joinedInflight firstId)
  ∧ countStarted (runCallers uninitializedPoolState (firstId :: rest)).2 = 1 := by
  have h1 : getPoolEntry uninitializedPoolState firstId =
      ({ pool := none, isInitializing := true, initPromise := some firstId },
       GetPoolObs.startedInit firstId) := rfl
  have h2 : runCallers uninitializedPoolState (firstId :: rest) =
      ({ pool := none, isInitializing := true, initPromise := some firstId },
       GetPoolObs.startedInit firstId ::
         rest.map (fun _ => GetPoolObs.joinedInflight firstId)) := by
    simp [runCallers, h1, runCallers_inflight]
  rw [h2]
  refine ⟨rfl, ?_⟩
  simp [countStarted, List.countP_cons]

/-- C7: a failed initialization leaves the pool singleton unset, clears
the single-flight guard (the final state equals the pristine uninitialized
state) and propagates the failure to the caller; the next `getPool` call,
made on that post-failure state, starts a fresh initialization attempt —
it does not return a cached failure — and succeeds normally. The trailing
`Bool` of `getPoolSingle` records whether the call started a fresh
initialization attempt. -/
theorem c7_failure_clears_guard_and_retries (e : String) (p : Nat) :
    getPoolSingle uninitializedPoolState (Except.error e) =
      (uninitializedPoolState, Except.error e, true)
  ∧ getPoolSingle (getPoolSingle uninitializedPoolState (Except.error e)).1
      (Except.ok p) =
      ({ pool := some p, isInitializing := false, initPromise := none },
       Except.ok p, true) :=
  ⟨rfl, rfl⟩

/-- A payload carrying a field literally named `user` but no `username`:
every field the claim names is present, yet resolution fails. -/
def userWithoutUsernamePayload : SecretPayload :=
  { host := some "h", port := some 5432, database := some "d",
    user := some "u", username := none, password := some "p" }

/-- C8, counterexample: a resolved payload whose `host`, `port`,
`database`, `user` and `password` fields are all present (none falsy)
still fails resolution with the malformed-secret error naming `username`:
the code's required-field list is `host, port, database, username,
password`, not `user`. -/
theorem c8_user_field_counterexample :
    strFalsy userWithoutUsernamePayload.host = false
  ∧ natFalsy userWithoutUsernamePayload.port = false
  ∧ strFalsy userWithoutUsernamePayload.database = false
  ∧ strFalsy userWithoutUsernamePayload.user = false
  ∧ strFalsy userWithoutUsernamePayload.password = false
  ∧ getDatabaseCredentials userWithoutUsernamePayload =
      Except.error ["username"] :=
  ⟨by decide, by decide, by decide, by decide, by decide, rfl⟩

/-- Whether credential resolution succeeded. -/
def resolutionOk : Except (List String) DbCredentials → Bool
  | Except.ok _ => true
  | Except.error _ => false

/-- C8, amended: resolution of a secret payload fails with the
malformed-secret error exactly when at least one of the required fields
`host`, `port`, `database`, `username`, `password` is missing (falsy) in
the payload; when all five are present it succeeds, returning connection
parameters whose `user` is taken from the payload's `username` field. -/
theorem c8_required_fields_use_username (secret : SecretPayload) :
    (resolutionOk (getDatabaseCredentials secret) = false ↔
      (strFalsy secret.host || natFalsy secret.port || strFalsy secret.database ||
       strFalsy secret.username || strFalsy secret.password) = true)
  ∧ ((strFalsy secret.host || natFalsy secret.port || strFalsy secret.database ||
      strFalsy secret.username || strFalsy secret.password) = false →
      getDatabaseCredentials secret =
        Except.ok { host := secret.host.getD "", port := jsOr secret.port 5432,
                    database := secret.database.getD "",
                    user := secret.username.getD "",
                    password := secret.password.getD "" }) := by
  cases hh : strFalsy secret.host <;> cases hp : natFalsy secret.port <;>
    cases hd : strFalsy secret.database <;> cases hu : strFalsy secret.username <;>
    cases hw : strFalsy secret.password <;>
    simp [getDatabaseCredentials, missingFields, resolutionOk, hh, hp, hd, hu, hw]

/-- A fully populated payload (with `username`) for the witness. -/
def completePayload : SecretPayload :=
  { host := some "h", port := some 5432, database := some "d",
    user := none, username := some "u", password := some "p" }

theorem c8_required_fields_use_username_witness :
    getDatabaseCredentials completePayload =
      Except.ok { host := "h", port := 5432, database := "d", user := "u",
                  password := "p" } :=
  (c8_required_fields_use_username completePayload).2 (by decide)
